import Mathlib

/-!
# Verification of the Bearpush upload pipeline

A shallow embedding of `cmd/bearpush/main.go` (the upload handler registered
on `POST /v1/upload/:product`, the pipeline invocation it performs, and the
graceful-shutdown tail of the server action), together with theorems checking
the repository's specification against it.

The handler's interactions with the operating system (multipart form parsing,
temporary-directory creation, file saving, pipe creation, process start, exit
status) are modelled as oracle inputs collected in `HandlerEnv`; the control
flow of the Go code over those outcomes is what is embedded and verified.
-/

deriving instance DecidableEq for Except

namespace Bearpush

/-- A product definition as used by the upload handler: only its `Script`
field is read there (`p.Script`, main.go:173/174). -/
structure Product where
  script : String
  deriving DecidableEq, Repr

/-- An HTTP response body: `c.String` sends plain text, `c.JSON` sends a
`gin.H{"error": ..., "message": ...}` object (the only JSON shape the
handler uses). -/
inductive Body where
  | text : String → Body
  | json : Nat → String → Body
  deriving DecidableEq, Repr

/-- An HTTP response: status code plus body. -/
structure Response where
  status : Nat
  body : Body
  deriving DecidableEq, Repr

/-- Outcome of running the handler: either a response was written, or the
handler panicked (a panic is recovered by the `RecoveryWithZap` middleware,
outside the handler). -/
inductive HandlerResult where
  | ok : Response → HandlerResult
  | panic : HandlerResult
  deriving DecidableEq, Repr

/-- Observable side effects of one handler run: whether the temporary staging
directory was created, whether `util.TryRemoveDir` ran on it (the `defer` at
main.go:162, which also runs while panicking), and whether `cmd.Start` was
invoked. -/
structure Effects where
  tempDirCreated : Bool
  tempDirRemoved : Bool
  startCalled : Bool
  deriving DecidableEq, Repr

/-- The child-process configuration the handler builds (main.go:174-177):
the program path, the environment slice assigned to `cmd.Env`, and `cmd.Stdin`
(never assigned, so `none`: the child gets no input). -/
structure CmdSpec where
  path : String
  env : List (String × String)
  stdin : Option String
  deriving DecidableEq, Repr

/-- Oracle inputs for one request: what each OS/framework call would return.
Error alternatives carry the diagnostic text Go would have in `err`. -/
structure HandlerEnv where
  /-- `appContext.Products`, an immutable name → product map. -/
  products : List (String × Product)
  /-- `c.Param("product")`, the product name from the URL. -/
  productParam : String
  /-- `c.FormFile("artifact")` (main.go:148). -/
  formFileResult : Except String Unit
  /-- `ioutil.TempDir("", "bearpush-")` (main.go:155); `ok` carries the
  created directory's path. -/
  tempDirResult : Except String String
  /-- `c.SaveUploadedFile(file, artifactPath)` (main.go:165). -/
  saveResult : Except String Unit
  /-- Error from `cmd.StdoutPipe()` (main.go:179); on error the pipe
  variable is `nil`. -/
  stdoutPipeErr : Option String
  /-- Error from `cmd.StderrPipe()` (main.go:184). -/
  stderrPipeErr : Option String
  /-- Error from `cmd.Start()` (main.go:189). -/
  startErr : Option String
  /-- `io.ReadAll(stdoutPipe)` when the pipe is non-nil (main.go:193):
  the drained bytes or a read error. The handler discards both. -/
  readStdout : Except String String
  /-- `io.ReadAll(stderrPipe)` when the pipe is non-nil (main.go:198). -/
  readStderr : Except String String
  /-- The child's exit status; `cmd.Wait` (main.go:203) returns an error
  iff the process was never started or this is non-zero. -/
  exitCode : Nat
  /-- `os.Environ()` of the server process (main.go:175). -/
  parentEnviron : List (String × String)
  deriving DecidableEq, Repr

/-- `appContext.Products[product]` (main.go:139): lookup in the read-only
catalog. -/
def lookupProduct (ps : List (String × Product)) (name : String) : Option Product :=
  (ps.find? (fun q => q.1 = name)).map (fun q => q.2)

/-- Go's `path.Join(dir, file)` for the call site `path.Join(tempDir,
"artifact")` (main.go:164). `path.Join` concatenates with `/` and then
cleans; cleaning is the identity on the arguments arising here (`TempDir`
returns an already-clean path with no trailing slash, and the file name is
the literal `"artifact"`). -/
def goPathJoin (dir file : String) : String :=
  if dir = "" then file else dir ++ "/" ++ file

/-- A Unix path is absolute iff it begins with `/`. -/
def isAbsolutePath (s : String) : Bool :=
  s.data.head? = some '/'

/-- Everything one handler run produces: the HTTP result (or panic), the
side effects, and the child-process configuration, if one was built. -/
structure HandlerOutput where
  result : HandlerResult
  effects : Effects
  cmd : Option CmdSpec
  deriving DecidableEq, Repr

/-- The fixed bodies the handler sends, named after their cause. -/
def notFoundResponse : Response :=
  ⟨400, Body.json 4 "Resource does not exist."⟩

/-- main.go:158: temp-dir creation failed. -/
def tempDirFailResponse : Response :=
  ⟨500, Body.text "Could not create a temporary directory for artifact. Check logs for details."⟩

/-- main.go:168: saving the artifact failed. -/
def saveFailResponse : Response :=
  ⟨500, Body.text "Could not save the uploaded artifact. Check logs for details."⟩

/-- main.go:205: `cmd.Wait` returned an error. -/
def pipelineFailResponse : Response :=
  ⟨422, Body.json 8 "Pipeline associated with resource errored."⟩

/-- main.go:213: success message naming the product. -/
def successResponse (product : String) : Response :=
  ⟨200, Body.text ("Artifact for product " ++ product ++ " processed successfully.")⟩

/-- The upload handler, main.go:136-215, translated branch by branch.

* Unknown product → 400 `{error: 4, ...}` (main.go:140-146).
* `FormFile` error → 400 with the error text interpolated (main.go:148-153).
* `TempDir` error → 500 fixed text (main.go:155-161); on success the
  directory is created and `defer util.TryRemoveDir` guarantees removal on
  every later exit, panics included (main.go:162).
* `SaveUploadedFile` error → 500 fixed text (main.go:165-171).
* If `p.Script != ""` (main.go:173): build the command with
  `os.Environ()` plus `ARTIFACT_PATH` (main.go:174-177). Pipe-setup and
  start errors are only logged (main.go:179-191) and execution continues:
  a failed `StdoutPipe`/`StderrPipe` leaves a nil reader, so the following
  `io.ReadAll(nil)` (main.go:193/198) dereferences a nil interface and
  panics. `ReadAll` errors are only logged. `cmd.Wait` errors (process not
  started, or non-zero exit) → 422 `{error: 8, ...}` (main.go:203-210).
* Otherwise → 200 success text (main.go:213-214). -/
def uploadHandler (env : HandlerEnv) : HandlerOutput :=
  match lookupProduct env.products env.productParam with
  | none =>
      ⟨HandlerResult.ok notFoundResponse, ⟨false, false, false⟩, none⟩
  | some p =>
    match env.formFileResult with
    | Except.error e =>
        ⟨HandlerResult.ok ⟨400, Body.text ("Error while uploading: " ++ e)⟩,
          ⟨false, false, false⟩, none⟩
    | Except.ok _ =>
      match env.tempDirResult with
      | Except.error _ =>
          ⟨HandlerResult.ok tempDirFailResponse, ⟨false, false, false⟩, none⟩
      | Except.ok tempDir =>
        match env.saveResult with
        | Except.error _ =>
            ⟨HandlerResult.ok saveFailResponse, ⟨true, true, false⟩, none⟩
        | Except.ok _ =>
          if p.script ≠ "" then
            let artifactPath := goPathJoin tempDir "artifact"
            let cmd : CmdSpec :=
              ⟨p.script, env.parentEnviron ++ [("ARTIFACT_PATH", artifactPath)], none⟩
            if env.stdoutPipeErr.isSome then
              ⟨HandlerResult.panic, ⟨true, true, true⟩, some cmd⟩
            else if env.stderrPipeErr.isSome then
              ⟨HandlerResult.panic, ⟨true, true, true⟩, some cmd⟩
            else if env.startErr.isSome ∨ env.exitCode ≠ 0 then
              ⟨HandlerResult.ok pipelineFailResponse, ⟨true, true, true⟩, some cmd⟩
            else
              ⟨HandlerResult.ok (successResponse env.productParam),
                ⟨true, true, true⟩, some cmd⟩
          else
            ⟨HandlerResult.ok (successResponse env.productParam),
              ⟨true, true, false⟩, none⟩

/-! ## Pipe-drain interaction model (main.go:193-203)

The handler drains the child's stdout to EOF (`io.ReadAll(stdoutPipe)`),
then its stderr to EOF, then calls `cmd.Wait`. Whether that sequencing can
block forever depends on the interaction with the child through the two
bounded OS pipes, so it is modelled as a small transition system: the child
executes a plan of writes to the two pipes and then exits (closing both
write ends); each pipe is a bounded byte buffer; the parent follows the Go
code's phases in order. A pipe yields EOF once the child has exited and the
buffer is empty. A write blocks while its buffer is full; a read blocks
while the buffer is empty and the write end is still open. -/

/-- One entry of the child's output plan: write that many bytes to the
given stream. -/
inductive OutAct where
  | toStdout : Nat → OutAct
  | toStderr : Nat → OutAct
  deriving DecidableEq, Repr

/-- The parent's position inside main.go:193-203. -/
inductive DrainPhase where
  /-- inside `io.ReadAll(stdoutPipe)` (main.go:193) -/
  | readingStdout
  /-- inside `io.ReadAll(stderrPipe)` (main.go:198) -/
  | readingStderr
  /-- inside `cmd.Wait()` (main.go:203) -/
  | waiting
  /-- `cmd.Wait` returned -/
  | done
  deriving DecidableEq, Repr

/-- Capacity of an OS pipe buffer in bytes (64 KiB, the Linux default). -/
def pipeCapacity : Nat := 65536

/-- Joint state of the child process, the two pipe buffers, and the parent. -/
structure InvokerState where
  /-- The child's remaining writes; when empty the child exits. -/
  plan : List OutAct
  /-- Child still running (its pipe write ends are open). -/
  childAlive : Bool
  /-- Bytes currently buffered in the stdout pipe. -/
  stdoutBuf : Nat
  /-- Bytes currently buffered in the stderr pipe. -/
  stderrBuf : Nat
  phase : DrainPhase
  deriving DecidableEq, Repr

/-- All moves the child can make: complete a (possibly partial) write into a
non-full pipe, drop an empty write, or exit once the plan is finished. A
write into a full pipe blocks, contributing no successor. -/
def childSteps (s : InvokerState) : List InvokerState :=
  if s.childAlive then
    match s.plan with
    | [] => [{ s with childAlive := false }]
    | OutAct.toStdout n :: rest =>
        if n = 0 then [{ s with plan := rest }]
        else if s.stdoutBuf < pipeCapacity then
          let k := min n (pipeCapacity - s.stdoutBuf)
          [{ s with stdoutBuf := s.stdoutBuf + k,
                    plan := if n - k = 0 then rest else OutAct.toStdout (n - k) :: rest }]
        else []
    | OutAct.toStderr n :: rest =>
        if n = 0 then [{ s with plan := rest }]
        else if s.stderrBuf < pipeCapacity then
          let k := min n (pipeCapacity - s.stderrBuf)
          [{ s with stderrBuf := s.stderrBuf + k,
                    plan := if n - k = 0 then rest else OutAct.toStderr (n - k) :: rest }]
        else []
  else []

/-- All moves the parent can make, following the Go code's order: `ReadAll`
consumes whatever is buffered, and returns (advancing to the next statement)
only on EOF — empty buffer with the child exited; while the buffer is empty
but the child lives, the read blocks. `cmd.Wait` returns once the child has
exited. -/
def parentSteps (s : InvokerState) : List InvokerState :=
  match s.phase with
  | DrainPhase.readingStdout =>
      if 0 < s.stdoutBuf then [{ s with stdoutBuf := 0 }]
      else if s.childAlive then []
      else [{ s with phase := DrainPhase.readingStderr }]
  | DrainPhase.readingStderr =>
      if 0 < s.stderrBuf then [{ s with stderrBuf := 0 }]
      else if s.childAlive then []
      else [{ s with phase := DrainPhase.waiting }]
  | DrainPhase.waiting =>
      if s.childAlive then [] else [{ s with phase := DrainPhase.done }]
  | DrainPhase.done => []

/-- Every successor of a state, by either party. An empty list means no
party can move. -/
def steps (s : InvokerState) : List InvokerState :=
  childSteps s ++ parentSteps s

/-- The state when the child (with output plan `plan`) has just been started
and the parent enters `io.ReadAll(stdoutPipe)`. -/
def initState (plan : List OutAct) : InvokerState :=
  ⟨plan, true, 0, 0, DrainPhase.readingStdout⟩

/-- A deadlock: nobody can move, yet the handler has not finished draining
and waiting. -/
def isDeadlock (s : InvokerState) : Bool :=
  decide (steps s = []) && decide (s.phase ≠ DrainPhase.done)

/-! ## Server lifecycle (main.go:229-236) -/

/-- The bound passed to `context.WithTimeout(context.Background(),
3*time.Second)` (main.go:231), in seconds. -/
def shutdownTimeoutSeconds : Nat := 3

/-- How the process ends after the interrupt was received. -/
inductive MainOutcome where
  /-- `srv.Shutdown` returned nil; the action returns normally. -/
  | exitNormally
  /-- `logger.Fatal("Server forced to shutdown: ", err)` (main.go:235). -/
  | fatal
  deriving DecidableEq, Repr

/-- `srv.Shutdown(ctx)` with the 3-second context: per net/http's documented
semantics it returns the context's deadline error iff the in-flight requests
have not finished by the deadline, here measured by how many seconds they
still need. -/
def shutdownErrors (inflightSeconds : Nat) : Bool :=
  shutdownTimeoutSeconds < inflightSeconds

/-- The tail of the server action (main.go:229-236): wait for the interrupt,
shut down with the 3-second bound, and treat a shutdown error as fatal. -/
def mainShutdown (inflightSeconds : Nat) : MainOutcome :=
  if shutdownErrors inflightSeconds then MainOutcome.fatal
  else MainOutcome.exitNormally

/-! ## Request processing with the token middleware -/

/-- Outcome of the full route `server.ValidateToken(appContext)` followed by
the upload handler. -/
inductive RequestOutcome where
  /-- The middleware rejected the credential and aborted the request. -/
  | unauthorized
  /-- The middleware passed and the handler ran. -/
  | handled : HandlerOutput → RequestOutcome
  deriving DecidableEq, Repr

/-- Modelled from the spec: `server.ValidateToken` (package `server`, not
under `src/`) verifies the presented credential against the product's token
strategy before the handler runs; per the spec, a verification failure
"yields an unauthorized outcome, never an exception/panic", an outcome
distinct from the catalog's "resource does not exist" outcome. It is
modelled by its verdict `authorized`. -/
def processUpload (authorized : Bool) (env : HandlerEnv) : RequestOutcome :=
  if authorized then RequestOutcome.handled (uploadHandler env)
  else RequestOutcome.unauthorized

/-! ## Concrete request environments, used by witnesses -/

/-- A sample configured product with a pipeline script. -/
def demoProduct : Product := ⟨"/opt/pipelines/deploy.sh"⟩

/-- A sample request environment in which every OS interaction succeeds and
the script exits 0. -/
def baseEnv : HandlerEnv where
  products := [("demo", demoProduct)]
  productParam := "demo"
  formFileResult := Except.ok ()
  tempDirResult := Except.ok "/tmp/bearpush-123456789"
  saveResult := Except.ok ()
  stdoutPipeErr := none
  stderrPipeErr := none
  startErr := none
  readStdout := Except.ok "build ok"
  readStderr := Except.ok ""
  exitCode := 0
  parentEnviron := [("PATH", "/usr/bin"), ("HOME", "/root")]

/-! ## Theorems -/

/-- C1: in every request environment in which the temporary staging
directory was created (`ioutil.TempDir` succeeded and the handler reached
the `defer util.TryRemoveDir(tempDir)` line), the directory is removed by
request completion, on every exit path — success, save failure, pipeline
failure, and even a handler panic. -/
theorem c1_temp_dir_always_removed (env : HandlerEnv)
    (h : (uploadHandler env).effects.tempDirCreated = true) :
    (uploadHandler env).effects.tempDirRemoved = true := by
  revert h
  unfold uploadHandler
  cases lookupProduct env.products env.productParam <;>
    cases env.formFileResult <;>
      cases env.tempDirResult <;>
        cases env.saveResult <;>
          simp <;> split_ifs <;> simp

/-- C1 witness: a concrete successful request creates and removes the
staging directory. -/
theorem c1_witness :
    (uploadHandler baseEnv).effects.tempDirRemoved = true :=
  c1_temp_dir_always_removed baseEnv (by decide)

/-- C3: with a known product, successful staging and a non-empty script
whose pipes and start succeed, a zero exit yields HTTP 200 with the success
message naming the product, and a non-zero exit yields HTTP 422 with error
code 8 — a code no other failure response carries (in particular the only
other coded response, unknown product, carries code 4). -/
theorem c3_exit_status_classification (env : HandlerEnv) (p : Product)
    (hl : lookupProduct env.products env.productParam = some p)
    (hf : env.formFileResult = Except.ok ())
    (ht : ∃ d, env.tempDirResult = Except.ok d)
    (hs : env.saveResult = Except.ok ())
    (hscript : p.script ≠ "")
    (hpo : env.stdoutPipeErr = none)
    (hpe : env.stderrPipeErr = none)
    (hst : env.startErr = none) :
    (env.exitCode = 0 →
      (uploadHandler env).result =
        HandlerResult.ok (successResponse env.productParam)) ∧
    (env.exitCode ≠ 0 →
      (uploadHandler env).result = HandlerResult.ok pipelineFailResponse) ∧
    (∀ env' : HandlerEnv, ∀ st : Nat, ∀ m : String,
      (uploadHandler env').result = HandlerResult.ok ⟨st, Body.json 8 m⟩ →
        st = 422) := by
  obtain ⟨d, htd⟩ := ht
  refine ⟨?_, ?_, ?_⟩
  · intro hx
    unfold uploadHandler
    simp [hl, hf, htd, hs, hscript, hpo, hpe, hst, hx]
  · intro hx
    unfold uploadHandler
    simp [hl, hf, htd, hs, hscript, hpo, hpe, hst, hx]
  · intro env' st m
    unfold uploadHandler
    cases lookupProduct env'.products env'.productParam <;>
      cases env'.formFileResult <;>
        cases env'.tempDirResult <;>
          cases env'.saveResult
    all_goals
      simp [notFoundResponse, tempDirFailResponse, saveFailResponse]
    all_goals
      split_ifs <;> simp [pipelineFailResponse, successResponse] <;>
        intros <;> omega

/-- C3 witness: on the concrete environment, exit 0 gives the 200 success
response and exit 1 gives the 422 pipeline-failure response. -/
theorem c3_witness :
    (uploadHandler baseEnv).result =
      HandlerResult.ok (successResponse "demo") ∧
    (uploadHandler { baseEnv with exitCode := 1 }).result =
      HandlerResult.ok pipelineFailResponse :=
  ⟨(c3_exit_status_classification baseEnv demoProduct rfl rfl ⟨_, rfl⟩ rfl
      (by decide) rfl rfl rfl).1 rfl,
   (c3_exit_status_classification { baseEnv with exitCode := 1 } demoProduct
      rfl rfl ⟨_, rfl⟩ rfl (by decide) rfl rfl rfl).2.1 (by decide)⟩

/-- C5: an upload naming a product absent from the catalog is answered with
HTTP 400 and the coded "Resource does not exist." body (`error: 4`), no
child process is started and no command is even built; an authorization
failure, by contrast, produces the distinct `unauthorized` outcome of the
spec-modelled middleware, never this handler output. -/
theorem c5_unknown_product_400_no_process (env : HandlerEnv)
    (hl : lookupProduct env.products env.productParam = none) :
    (uploadHandler env).result = HandlerResult.ok notFoundResponse ∧
    notFoundResponse.status = 400 ∧
    notFoundResponse.body = Body.json 4 "Resource does not exist." ∧
    (uploadHandler env).effects.startCalled = false ∧
    (uploadHandler env).cmd = none ∧
    (∀ env' : HandlerEnv,
      processUpload false env' = RequestOutcome.unauthorized ∧
      processUpload false env' ≠
        RequestOutcome.handled (uploadHandler env)) := by
  unfold uploadHandler processUpload
  simp [hl, notFoundResponse]

/-- C5 witness: a concrete request for the unconfigured product `ghost`. -/
theorem c5_witness :
    (uploadHandler { baseEnv with productParam := "ghost" }).result =
      HandlerResult.ok notFoundResponse :=
  (c5_unknown_product_400_no_process { baseEnv with productParam := "ghost" }
    (by decide)).1

/-- C6: when the resolved product's script path is empty, a staged upload
is answered with HTTP 200 unconditionally — whatever the pipe, start and
exit oracle fields hold — and no child process is started or built. -/
theorem c6_empty_script_trivial_success (env : HandlerEnv) (p : Product)
    (hl : lookupProduct env.products env.productParam = some p)
    (hf : env.formFileResult = Except.ok ())
    (ht : ∃ d, env.tempDirResult = Except.ok d)
    (hs : env.saveResult = Except.ok ())
    (hscript : p.script = "") :
    (uploadHandler env).result =
      HandlerResult.ok (successResponse env.productParam) ∧
    (successResponse env.productParam).status = 200 ∧
    (uploadHandler env).effects.startCalled = false ∧
    (uploadHandler env).cmd = none := by
  obtain ⟨d, htd⟩ := ht
  unfold uploadHandler
  simp [hl, hf, htd, hs, hscript, successResponse]

/-- C6 witness: a concrete scriptless product succeeds with 200 and spawns
nothing, even though the oracle says the (never-run) script would exit 7. -/
theorem c6_witness :
    (uploadHandler { baseEnv with
        products := [("demo", ⟨""⟩)], exitCode := 7 }).result =
      HandlerResult.ok (successResponse "demo") :=
  (c6_empty_script_trivial_success
    { baseEnv with products := [("demo", ⟨""⟩)], exitCode := 7 }
    ⟨""⟩ rfl rfl ⟨_, rfl⟩ rfl rfl).1

/-- C10: when staging fails — `ioutil.TempDir` errors, or it succeeds and
`SaveUploadedFile` errors — the handler answers HTTP 500 (with the
corresponding fixed body) and never starts, or even builds, a child
process. -/
theorem c10_staging_failure_500_no_process (env : HandlerEnv) (p : Product)
    (hl : lookupProduct env.products env.productParam = some p)
    (hf : env.formFileResult = Except.ok ())
    (hfail : (∃ e, env.tempDirResult = Except.error e) ∨
      ((∃ d, env.tempDirResult = Except.ok d) ∧
        ∃ e, env.saveResult = Except.error e)) :
    ((uploadHandler env).result = HandlerResult.ok tempDirFailResponse ∨
     (uploadHandler env).result = HandlerResult.ok saveFailResponse) ∧
    tempDirFailResponse.status = 500 ∧
    saveFailResponse.status = 500 ∧
    (uploadHandler env).effects.startCalled = false ∧
    (uploadHandler env).cmd = none := by
  unfold uploadHandler
  rcases hfail with ⟨e, he⟩ | ⟨⟨d, hd⟩, e, he⟩
  · simp [hl, hf, he, tempDirFailResponse, saveFailResponse]
  · simp [hl, hf, hd, he, tempDirFailResponse, saveFailResponse]

/-- C10 witness: concrete temp-dir and save failures each give a 500. -/
theorem c10_witness :
    ((uploadHandler { baseEnv with
        tempDirResult := Except.error "no space left on device" }).result =
      HandlerResult.ok tempDirFailResponse ∨
     (uploadHandler { baseEnv with
        tempDirResult := Except.error "no space left on device" }).result =
      HandlerResult.ok saveFailResponse) ∧
    ((uploadHandler { baseEnv with
        saveResult := Except.error "disk quota exceeded" }).result =
      HandlerResult.ok tempDirFailResponse ∨
     (uploadHandler { baseEnv with
        saveResult := Except.error "disk quota exceeded" }).result =
      HandlerResult.ok saveFailResponse) :=
  ⟨(c10_staging_failure_500_no_process
      { baseEnv with tempDirResult := Except.error "no space left on device" }
      demoProduct rfl rfl (Or.inl ⟨_, rfl⟩)).1,
   (c10_staging_failure_500_no_process
      { baseEnv with saveResult := Except.error "disk quota exceeded" }
      demoProduct rfl rfl (Or.inr ⟨⟨_, rfl⟩, _, rfl⟩)).1⟩

/-- Helper for C7: joining a file name onto an absolute directory yields an
absolute path. -/
theorem isAbsolutePath_goPathJoin (d f : String)
    (habs : isAbsolutePath d = true) :
    isAbsolutePath (goPathJoin d f) = true := by
  unfold isAbsolutePath at habs ⊢
  rcases hdd : d.data with _ | ⟨c, t⟩
  · rw [hdd] at habs; simp at habs
  · rw [hdd] at habs
    simp at habs
    have hd : d ≠ "" := by
      intro h
      rw [h] at hdd
      exact List.noConfusion hdd
    rw [goPathJoin, if_neg hd]
    rw [String.data_append, String.data_append, hdd, habs]
    rfl

/-- C7: on every pipeline invocation, the command the handler builds runs
the product's script with environment `os.Environ()` plus exactly the one
extra entry `ARTIFACT_PATH=<staged artifact path>` appended, provides no
stdin, and — when the temporary directory is absolute, as `TempDir` under
an absolute `os.TempDir()` guarantees — that artifact path is absolute. -/
theorem c7_child_process_contract (env : HandlerEnv) (p : Product)
    (d : String)
    (hl : lookupProduct env.products env.productParam = some p)
    (hf : env.formFileResult = Except.ok ())
    (htd : env.tempDirResult = Except.ok d)
    (hs : env.saveResult = Except.ok ())
    (hscript : p.script ≠ "")
    (habs : isAbsolutePath d = true) :
    (uploadHandler env).cmd = some
      ⟨p.script,
       env.parentEnviron ++ [("ARTIFACT_PATH", goPathJoin d "artifact")],
       none⟩ ∧
    ((uploadHandler env).cmd.map (fun c => c.env.length) =
      some (env.parentEnviron.length + 1)) ∧
    isAbsolutePath (goPathJoin d "artifact") = true := by
  refine ⟨?_, ?_, isAbsolutePath_goPathJoin d "artifact" habs⟩ <;>
    · unfold uploadHandler
      simp [hl, hf, htd, hs, hscript]
      split_ifs <;> simp

/-- C7 witness: the concrete successful request builds exactly the expected
command: `/opt/pipelines/deploy.sh`, the parent environment plus
`ARTIFACT_PATH=/tmp/bearpush-123456789/artifact`, no stdin. -/
theorem c7_witness :
    (uploadHandler baseEnv).cmd = some
      ⟨"/opt/pipelines/deploy.sh",
       [("PATH", "/usr/bin"), ("HOME", "/root"),
        ("ARTIFACT_PATH", "/tmp/bearpush-123456789/artifact")],
       none⟩ :=
  (c7_child_process_contract baseEnv demoProduct "/tmp/bearpush-123456789"
    rfl rfl rfl rfl (by decide) (by decide)).1

/-- C9: the handler's HTTP result depends only on which step failed, never
on the diagnostic detail. Two request environments that agree on the
product name, the catalog verdict, the form-file outcome, and the
success/failure shape of every OS interaction — but may differ arbitrarily
in error texts, drained stdout/stderr content, read errors and the parent
environment — produce identical results; in particular the staging-failure
and pipeline-failure bodies are fixed strings. -/
theorem c9_responses_independent_of_diagnostics (e₁ e₂ : HandlerEnv)
    (hn : e₁.productParam = e₂.productParam)
    (hl : lookupProduct e₁.products e₁.productParam =
          lookupProduct e₂.products e₂.productParam)
    (hf : e₁.formFileResult = e₂.formFileResult)
    (ht : e₁.tempDirResult.isOk = e₂.tempDirResult.isOk)
    (hs : e₁.saveResult.isOk = e₂.saveResult.isOk)
    (ho : e₁.stdoutPipeErr.isSome = e₂.stdoutPipeErr.isSome)
    (he : e₁.stderrPipeErr.isSome = e₂.stderrPipeErr.isSome)
    (hst : e₁.startErr.isSome = e₂.startErr.isSome)
    (hx : e₁.exitCode = e₂.exitCode) :
    (uploadHandler e₁).result = (uploadHandler e₂).result := by
  unfold uploadHandler
  rw [hl, hn, hf]
  cases lookupProduct e₂.products e₂.productParam
  · rfl
  · cases e₂.formFileResult
    · rfl
    · rcases h₁ : e₁.tempDirResult with a | b <;>
        rcases h₂ : e₂.tempDirResult with a' | b' <;>
          rw [h₁, h₂] at ht <;>
            first
              | rfl
              | simp [Except.isOk, Except.toBool] at ht
      rcases hs₁ : e₁.saveResult with a | b <;>
        rcases hs₂ : e₂.saveResult with a' | b' <;>
          rw [hs₁, hs₂] at hs <;>
            first
              | rfl
              | simp [Except.isOk, Except.toBool] at hs
      simp only [ho, he, hst, hx]
      split_ifs <;> rfl

/-- C9 witness: two concrete runs whose oracles fail identically (pipeline
exits 3) but whose diagnostic texts, drained output and parent environment
all differ give byte-identical responses. -/
theorem c9_witness :
    (uploadHandler { baseEnv with
        exitCode := 3
        readStdout := Except.ok "deploying 1.2.0"
        readStderr := Except.ok "warning: slow disk" }).result =
    (uploadHandler { baseEnv with
        exitCode := 3
        readStdout := Except.ok "deploying 9.9.9"
        readStderr := Except.ok "stderr differs between the two runs"
        parentEnviron := [("PATH", "/bin")] }).result :=
  c9_responses_independent_of_diagnostics _ _
    rfl rfl rfl rfl rfl rfl rfl rfl rfl

/-- The child behavior refuting C2: write one byte more than a pipe buffer
holds to stderr, then exit. Total output is far below "megabytes", yet it
already jams the handler. -/
def c2Plan : List OutAct := [OutAct.toStderr (pipeCapacity + 1)]

/-- The jammed configuration that run reaches: the stderr pipe is full, the
child is blocked on its last stderr byte, and the parent is still inside
`io.ReadAll(stdoutPipe)` waiting for a stdout EOF that can only come when
the blocked child exits. -/
def c2Stuck : InvokerState :=
  ⟨[OutAct.toStderr 1], true, 0, pipeCapacity, DrainPhase.readingStdout⟩

/-- C2 counterevidence: from the start of the drain sequence of
main.go:193-203, one child step reaches `c2Stuck`, a state in which neither
the child nor the handler can move and the handler has not finished — the
sequential `ReadAll(stdout)`-then-`ReadAll(stderr)`-then-`Wait` ordering
deadlocks on a full stderr pipe, so the request hangs forever. -/
theorem c2_sequential_drain_deadlocks :
    c2Stuck ∈ steps (initState c2Plan) ∧ isDeadlock c2Stuck = true := by
  constructor
  · show c2Stuck ∈ steps (initState c2Plan)
    have h : steps (initState c2Plan) = [c2Stuck] := by decide
    rw [h]
    exact List.mem_singleton.mpr rfl
  · decide

/-- The request environment refuting C4: `cmd.StdoutPipe()` fails (for
example under file-descriptor exhaustion), everything else is healthy. -/
def c4Env : HandlerEnv :=
  { baseEnv with
      stdoutPipeErr := some "pipe: too many open files"
      readStdout := Except.error "never reached: ReadAll receives a nil reader" }

/-- C4 counterevidence: when stdout-pipe setup fails the handler only logs
the error and continues, so `io.ReadAll` is called on a nil reader and the
handler panics; the request is not classified as a pipeline failure (the
422 `Failed` response), contrary to the claim that stream-setup failures
are classified as `Failed` without any panic. -/
theorem c4_stream_setup_failure_panics :
    (uploadHandler c4Env).result = HandlerResult.panic ∧
    (uploadHandler c4Env).result ≠ HandlerResult.ok pipelineFailResponse ∧
    (uploadHandler { c4Env with
        stdoutPipeErr := none
        stderrPipeErr := some "pipe: too many open files" }).result =
      HandlerResult.panic := by decide

/-- C8: the graceful-shutdown bound is exactly 3 seconds, in-flight work
finishing within the bound lets the process exit normally, and exceeding
the bound makes `srv.Shutdown` return an error, which `logger.Fatal` turns
into a process-fatal condition. -/
theorem c8_shutdown_bound_and_fatality :
    shutdownTimeoutSeconds = 3 ∧
    (∀ t : Nat, t ≤ 3 → mainShutdown t = MainOutcome.exitNormally) ∧
    (∀ t : Nat, 3 < t → mainShutdown t = MainOutcome.fatal) := by
  refine ⟨rfl, ?_, ?_⟩ <;>
    · intro t h
      simp [mainShutdown, shutdownErrors, shutdownTimeoutSeconds]
      omega

/-- C8 witness: draining for 2 seconds exits normally; needing 5 seconds is
fatal. -/
theorem c8_witness :
    mainShutdown 2 = MainOutcome.exitNormally ∧
    mainShutdown 5 = MainOutcome.fatal :=
  ⟨c8_shutdown_bound_and_fatality.2.1 2 (by decide),
   c8_shutdown_bound_and_fatality.2.2 5 (by decide)⟩

end Bearpush
